import Mathlib

/-!
Verification of `check_teamredminer.py` against its specification.

The program is a Nagios-style health check for the TeamRedMiner status API.
We shallow-embed the check-evaluation engine: Python values appearing in the
decoded JSON payloads and in metrics are modelled by `PVal` (numbers as `Int`,
strings, booleans), fallible code paths return `Except String`/`Option`, and
the Nagios severity states are the four-element ordered enum `Severity`.
Parts of the behaviour implemented by the external `nagiosplugin` library
(which is not part of this repository's sources) are modelled from the
specification and clearly marked as such in their doc comments.
-/

/-- Python values flowing through the check: JSON numbers (modelled as `Int`),
JSON strings, and Python booleans (metric values for `alive_<id>` metrics). -/
inductive PVal where
  | num (n : Int)
  | str (s : String)
  | bool (b : Bool)
deriving DecidableEq, Repr

/-- Python `str()` rendering of a `PVal`, as used inside f-strings:
`str(5) = "5"`, `str(True) = "True"`, strings render verbatim. -/
def PVal.pyStr : PVal → String
  | .num n => toString n
  | .str s => s
  | .bool b => if b then "True" else "False"

/-- Python `str()` of a boolean (`True` / `False`). -/
def pyBoolStr (b : Bool) : String := if b then "True" else "False"

/-- The Nagios service states used by the program
(`nagiosplugin.state.Ok/Warn/Critical/Unknown`). -/
inductive Severity where
  | Ok
  | Warn
  | Critical
  | Unknown
deriving DecidableEq, Repr

/-- Numeric code of a severity (also the process exit code:
Ok=0, Warning=1, Critical=2, Unknown=3). -/
def Severity.toCode : Severity → Nat
  | .Ok => 0
  | .Warn => 1
  | .Critical => 2
  | .Unknown => 3

/-- Textual rendering of a severity, as `str(state)` produces in Python
(`nagiosplugin` state names). -/
def Severity.text : Severity → String
  | .Ok => "ok"
  | .Warn => "warning"
  | .Critical => "critical"
  | .Unknown => "unknown"

/-- Order on severities by badness: Ok < Warning < Critical < Unknown. -/
def Severity.le (a b : Severity) : Prop := a.toCode ≤ b.toCode

instance : DecidablePred fun p : Severity × Severity => Severity.le p.1 p.2 :=
  fun p => inferInstanceAs (Decidable (p.1.toCode ≤ p.2.toCode))

instance (a b : Severity) : Decidable (Severity.le a b) :=
  inferInstanceAs (Decidable (a.toCode ≤ b.toCode))

/-- A metric produced by the probe: `nagiosplugin.Metric(name, value, uom=..,
context=..)`. -/
structure Metric where
  name : String
  value : PVal
  uom : Option String
  context : String
deriving DecidableEq, Repr

/-- A per-metric evaluation result: `self.result_cls(state, hint, metric)`. -/
structure CheckResult where
  state : Severity
  hint : Option String
  metric : Metric
deriving DecidableEq, Repr

/-- The `unit` local of `BelowThresholdContext.evaluate`: starts as Python
`None` and is replaced by `metric.uom` only when the latter is truthy
(non-`None` and non-empty); an f-string renders `None` as `"None"`. -/
def unitText (uom : Option String) : String :=
  match uom with
  | some u => if u = "" then "None" else u
  | none => "None"

/-- Python truthiness test `if self.critical and metric.value <= self.critical`
for an optional integer bound: fires only when the bound is present, nonzero
(Python `0` is falsy) and the value is at or below it. -/
def boundFires (bound : Option Int) (v : Int) : Bool :=
  match bound with
  | none => false
  | some b => decide (b ≠ 0) && decide (v ≤ b)

/-- The hint string `f"{metric.value}<={bound}{unit}"` of the threshold-below
context. -/
def belowHint (v bound : Int) (uom : Option String) : String :=
  toString v ++ "<=" ++ toString bound ++ unitText uom

/-- Configuration of `BelowThresholdContext`: optional warning and critical
bounds (absent bound = CLI option not given). -/
structure BelowThresholdContext where
  warning : Option Int
  critical : Option Int
deriving DecidableEq, Repr

/-- Numeric view of a Python value for order comparisons: numbers compare as
themselves, booleans as 0/1 (`bool` is an `int` subtype in Python), and
comparing a string with a number raises `TypeError`, modelled as `none`. -/
def PVal.cmpInt : PVal → Option Int
  | .num n => some n
  | .bool b => some (if b then 1 else 0)
  | .str _ => none

/-- Shallow embedding of `BelowThresholdContext.evaluate` (source lines
132-145): critical tier first, then warning tier, each guarded by Python
truthiness of the bound; hint `f"{metric.value}<={bound}{unit}"`. -/
def BelowThresholdContext.evaluate (ctx : BelowThresholdContext) (m : Metric) :
    Option CheckResult :=
  match m.value.cmpInt with
  | none => none
  | some v =>
    if boundFires ctx.critical v then
      some ⟨Severity.Critical,
        some (m.value.pyStr ++ "<=" ++ toString (ctx.critical.getD 0) ++ unitText m.uom), m⟩
    else if boundFires ctx.warning v then
      some ⟨Severity.Warn,
        some (m.value.pyStr ++ "<=" ++ toString (ctx.warning.getD 0) ++ unitText m.uom), m⟩
    else
      some ⟨Severity.Ok, none, m⟩

/-- Configuration of `BooleanContext` (`expected=True, warning=False,
critical=False` defaults in `__init__`). -/
structure BooleanContext where
  expected : Bool
  warning : Bool
  critical : Bool
deriving DecidableEq, Repr

/-- Python identity test `metric.value is self.expected`: only a boolean can
be identical to the `True` / `False` singletons. -/
def PVal.isPyBool (v : PVal) (b : Bool) : Bool :=
  match v with
  | .bool x => x == b
  | _ => false

/-- Shallow embedding of `BooleanContext.evaluate` (source lines 166-177):
on mismatch the state defaults to Ok, upgraded to Critical when configured
critical, else to Warning when configured warning, with hint
`f"{metric.name} is not {self.expected}"`. -/
def BooleanContext.evaluate (ctx : BooleanContext) (m : Metric) : CheckResult :=
  if !(m.value.isPyBool ctx.expected) then
    let resultType :=
      if ctx.critical then Severity.Critical
      else if ctx.warning then Severity.Warn
      else Severity.Ok
    ⟨resultType, some (m.name ++ " is not " ++ pyBoolStr ctx.expected), m⟩
  else
    ⟨Severity.Ok, none, m⟩

/-- Configuration of the nagiosplugin `ScalarContext` registered for the
`"temperature"` context in `main` (an integer warning and critical bound). -/
structure ScalarContextCfg where
  warning : Int
  critical : Int
deriving DecidableEq, Repr

/-- Modelled from the spec: `ScalarContext.evaluate` is provided by the
external `nagiosplugin` library and is not part of this repository's sources.
Spec section 4.4 (threshold-above context): verdict is Critical if
`value >= criticalBound`, else Warning if `value >= warningBound`, else Ok. -/
def ScalarContextCfg.evaluate (ctx : ScalarContextCfg) (v : Int) : Severity :=
  if v ≥ ctx.critical then Severity.Critical
  else if v ≥ ctx.warning then Severity.Warn
  else Severity.Ok

/-- One element of the response's `STATUS` array (`{STATUS, Code, Msg}`). -/
structure StatusEntry where
  status : String
  code : Int
  msg : String
deriving DecidableEq, Repr

/-- The message of the `ApiError` raised by `raise_for_status`:
`f"API error: {message} (code {code})"`. -/
def apiErrorMsg (message : String) (code : Int) : String :=
  "API error: " ++ message ++ " (code " ++ toString code ++ ")"

namespace TeamRedMinerApi

/-- Shallow embedding of `TeamRedMinerApi.raise_for_status` (source lines
54-61): scans the `STATUS` array and raises `ApiError` at the first element
whose status code is `"W"`, `"E"` or `"F"`; returns the raised error message,
or `none` when every element passes validation. -/
def raise_for_status : List StatusEntry → Option String
  | [] => none
  | r :: rest =>
    if r.status = "W" ∨ r.status = "E" ∨ r.status = "F" then
      some (apiErrorMsg r.msg r.code)
    else
      raise_for_status rest

end TeamRedMinerApi

/-- A decoded API response after JSON parsing: the `STATUS` envelope array
plus the single remaining payload value (the code pops `STATUS` and `id` and
returns the one leftover key's value). -/
structure ApiResponse (α : Type) where
  status : List StatusEntry
  payload : α
deriving Repr

/-- Shallow embedding of the validation-and-unwrap tail of
`TeamRedMinerApi.request` (source lines 47-52): `raise_for_status` on the
decoded response, then return the payload. Transport and JSON-decode
behaviour is not modelled; the function starts from a decoded response. -/
def TeamRedMinerApi.request {α : Type} (resp : ApiResponse α) : Except String α :=
  match TeamRedMinerApi.raise_for_status resp.status with
  | some e => Except.error e
  | none => Except.ok resp.payload

/-- A decoded JSON record (object), as an association list of key/value
pairs. -/
abbrev JRec := List (String × PVal)

/-- Python `key in record` / `record[key]` lookup. -/
def JRec.get (r : JRec) (k : String) : Option PVal :=
  List.lookup k r

namespace TeamRedMiner

/-- The metrics emitted from the first `summary` record (source lines 74-84).
A present `"MHS 30s"` yields the `hashrate` metric; a present `"Elapsed"`
yields the `uptime` metric.  The logging line compares `uptime > 1`, which
raises `TypeError` when `"Elapsed"` holds a string, modelled as an error. -/
def summaryMetrics (summary : JRec) : Except String (List Metric) :=
  let hs : List Metric :=
    match summary.get "MHS 30s" with
    | some v => [⟨"hashrate", v, some "MH/s", "hashrate"⟩]
    | none => []
  match summary.get "Elapsed" with
  | some (.str _) =>
    Except.error "TypeError: unsupported comparison between str and int"
  | some v => Except.ok (hs ++ [⟨"uptime", v, some "s", "uptime"⟩])
  | none => Except.ok hs

/-- The metrics emitted from one `devs` record (source lines 87-121): nothing
without a `"GPU"` field; otherwise `alive_<id>` when `"Status"` is present
(true exactly when the status equals `"Alive"`), `temperature_<id>` when
`"Temperature"` is present, and `memory_temperature_<id>` when
`"TemperatureMem"` is present — the latter registered under the
`"temperature"` context name (source line 119). -/
def deviceMetrics (device : JRec) : List Metric :=
  match device.get "GPU" with
  | none => []
  | some idv =>
    (match device.get "Status" with
     | some sv => [⟨"alive_" ++ idv.pyStr, .bool (sv == .str "Alive"), none, "alive"⟩]
     | none => []) ++
    (match device.get "Temperature" with
     | some tv => [⟨"temperature_" ++ idv.pyStr, tv, some "C", "temperature"⟩]
     | none => []) ++
    (match device.get "TemperatureMem" with
     | some tv => [⟨"memory_temperature_" ++ idv.pyStr, tv, some "C", "temperature"⟩]
     | none => [])

/-- Shallow embedding of `TeamRedMiner.probe` (source lines 70-123), starting
from the two decoded API responses.  `summary[0]` raises `IndexError` on an
empty payload; each request's validation error aborts the probe. -/
def probe (summaryResp : ApiResponse (List JRec)) (devsResp : ApiResponse (List JRec)) :
    Except String (List Metric) := do
  let summaryPayload ← TeamRedMinerApi.request summaryResp
  let summary ←
    match summaryPayload with
    | [] => Except.error "IndexError: list index out of range"
    | s :: _ => Except.ok s
  let sMetrics ← summaryMetrics summary
  let devices ← TeamRedMinerApi.request devsResp
  Except.ok (sMetrics ++ devices.flatMap deviceMetrics)

end TeamRedMiner

/-- Python `str()` of an optional hint: `None` renders as `"None"`. -/
def hintText (h : Option String) : String :=
  match h with
  | some s => s
  | none => "None"

/-- Rendering of one non-Ok result inside `TeamRedMinerSummary.problem`:
`f"{result.metric.name} {result.state}: {result.hint}"`. -/
def renderResult (r : CheckResult) : String :=
  r.metric.name ++ " " ++ r.state.text ++ ": " ++ hintText r.hint

/-- Shallow embedding of `TeamRedMinerSummary.problem` (source lines
180-188): renders the results whose state does not print as `"ok"` and joins
them with `", "`. -/
def TeamRedMinerSummary.problem (results : List CheckResult) : String :=
  String.intercalate ", "
    ((results.filter fun r => r.state.text ≠ "ok").map renderResult)

/-- The threshold-related arguments produced by `parse_arguments` (source
lines 239-290): the hashrate/uptime bounds have no default (absent unless
given on the command line), the temperature bounds default to 70/90 and the
memory-temperature bounds to 90/110. -/
structure Args where
  hashrate_warning : Option Int
  hashrate_critical : Option Int
  uptime_warning : Option Int
  uptime_critical : Option Int
  temperature_warning : Int
  temperature_critical : Int
  memory_temperature_warning : Int
  memory_temperature_critical : Int
deriving DecidableEq, Repr

/-- The argparse defaults: no hashrate or uptime bounds, temperature 70/90,
memory temperature 90/110. -/
def defaultArgs : Args :=
  ⟨none, none, none, none, 70, 90, 90, 110⟩

/-- One evaluation context registered with the `Check` in `main`. -/
inductive ContextSpec where
  | below (c : BelowThresholdContext)
  | scalar (c : ScalarContextCfg)
  | boolean (c : BooleanContext)
deriving DecidableEq, Repr

/-- The contexts registered by `main` (source lines 313-330), keyed by
context name: below-threshold contexts for `hashrate` and `uptime`, a
`ScalarContext` named `temperature` built from the temperature bounds, and a
`BooleanContext` named `alive` with `expected=True, critical=True`.  Note
that `args.memory_temperature_warning` / `_critical` are never used here. -/
def checkContexts (args : Args) : List (String × ContextSpec) :=
  [("hashrate", .below ⟨args.hashrate_warning, args.hashrate_critical⟩),
   ("uptime", .below ⟨args.uptime_warning, args.uptime_critical⟩),
   ("temperature", .scalar ⟨args.temperature_warning, args.temperature_critical⟩),
   ("alive", .boolean ⟨true, false, true⟩)]

/-- Dispatch of one metric to one registered context.  The below-threshold
and boolean variants are embedded from the source; the scalar variant uses
the spec-modelled `ScalarContextCfg.evaluate` (the spec does not fix its hint
text, modelled here as `none`). -/
def ContextSpec.run (c : ContextSpec) (m : Metric) : Option CheckResult :=
  match c with
  | .below ctx => ctx.evaluate m
  | .scalar ctx =>
    match m.value.cmpInt with
    | none => none
    | some v => some ⟨ctx.evaluate v, none, m⟩
  | .boolean ctx => some (ctx.evaluate m)

/-- Maximum of two severities in the order Ok < Warning < Critical <
Unknown. -/
def Severity.max (a b : Severity) : Severity :=
  if a.toCode ≤ b.toCode then b else a

/-- Modelled from the spec: the overall-severity aggregation is performed by
the external `nagiosplugin` library's `Check`/`Results` machinery, not by
this repository's sources.  Spec section 4.6: the overall severity is the
maximum (per the Severity order) over all individual results, with Ok as the
floor when the result set is empty. -/
def overallSeverity (states : List Severity) : Severity :=
  states.foldl Severity.max Severity.Ok

/-- Evaluation of every probed metric against the registered contexts:
each metric is routed to the context under its `contextName`; a metric with
no matching context (or an ill-typed value) contributes no result. -/
def evaluateMetrics (ctxs : List (String × ContextSpec)) (metrics : List Metric) :
    List CheckResult :=
  metrics.filterMap fun m => (List.lookup m.context ctxs).bind (fun c => c.run m)

/-- The check outcome produced by one run of `main` (source lines 312-335)
on a pair of decoded API responses: the `try`/`except` boundary converts any
error from the probe into severity Unknown with problem text
`f"Failed to execute check: {err}"`; otherwise the metrics are evaluated,
aggregated to the worst severity, and summarised by
`TeamRedMinerSummary.problem`. -/
def mainOutcome (args : Args) (summaryResp devsResp : ApiResponse (List JRec)) :
    Severity × String :=
  match TeamRedMiner.probe summaryResp devsResp with
  | Except.error e => (Severity.Unknown, "Failed to execute check: " ++ e)
  | Except.ok metrics =>
    let results := evaluateMetrics (checkContexts args) metrics
    (overallSeverity (results.map CheckResult.state), TeamRedMinerSummary.problem results)

/-- C1 (counterexample): the claim states that a critical bound configured as
the number 0 still fires when `value <= criticalBound`.  On the code, with
critical bound 0 and hashrate value 0 (so the bound is configured and
`value <= bound` holds), the verdict is Ok, not Critical: the Python guard
`if self.critical and ...` treats the number 0 as falsy. -/
theorem c1_counterexample :
    BelowThresholdContext.evaluate ⟨none, some 0⟩
        ⟨"hashrate", PVal.num 0, some "MH/s", "hashrate"⟩ =
      some ⟨Severity.Ok, none, ⟨"hashrate", PVal.num 0, some "MH/s", "hashrate"⟩⟩ ∧
    (0 : Int) ≤ 0 ∧ Severity.Ok ≠ Severity.Critical := by
  exact ⟨rfl, by decide, by decide⟩

/-- C1 (amended): in the threshold-below context, if a critical bound is
configured and nonzero and `value <= criticalBound`, the verdict is Critical
with hint `"<value><=<criticalBound><unit>"`; otherwise, if a warning bound
is configured and nonzero and `value <= warningBound`, the verdict is Warning
with the analogous hint; otherwise the verdict is Ok with no hint.  An absent
bound disables its tier, and so does a bound configured as 0 (Python
truthiness) — it is never treated as an active zero threshold. -/
theorem c1_below_threshold (w c : Option Int) (name cn : String) (v : Int)
    (uomv : Option String) :
    (∀ cb, c = some cb → cb ≠ 0 → v ≤ cb →
      BelowThresholdContext.evaluate ⟨w, c⟩ ⟨name, PVal.num v, uomv, cn⟩ =
        some ⟨Severity.Critical, some (belowHint v cb uomv),
          ⟨name, PVal.num v, uomv, cn⟩⟩) ∧
    (boundFires c v = false → ∀ wb, w = some wb → wb ≠ 0 → v ≤ wb →
      BelowThresholdContext.evaluate ⟨w, c⟩ ⟨name, PVal.num v, uomv, cn⟩ =
        some ⟨Severity.Warn, some (belowHint v wb uomv),
          ⟨name, PVal.num v, uomv, cn⟩⟩) ∧
    (boundFires c v = false → boundFires w v = false →
      BelowThresholdContext.evaluate ⟨w, c⟩ ⟨name, PVal.num v, uomv, cn⟩ =
        some ⟨Severity.Ok, none, ⟨name, PVal.num v, uomv, cn⟩⟩) := by
  refine ⟨?_, ?_, ?_⟩
  · intro cb hc hcb hv
    subst hc
    simp [BelowThresholdContext.evaluate, PVal.cmpInt, boundFires, hcb, hv,
      belowHint, PVal.pyStr]
  · intro hcf wb hw hwb hv
    subst hw
    simp only [BelowThresholdContext.evaluate, PVal.cmpInt]
    rw [hcf]
    simp [boundFires, hwb, hv, belowHint, PVal.pyStr]
  · intro hcf hwf
    simp only [BelowThresholdContext.evaluate, PVal.cmpInt]
    rw [hcf, hwf]
    simp

/-- C1 (witness): the spec's own worked example — hashrate 0 with critical
bound 5 evaluates to Critical with hint `"0<=5MH/s"`. -/
theorem c1_below_threshold_witness :
    BelowThresholdContext.evaluate ⟨none, some 5⟩
        ⟨"hashrate", PVal.num 0, some "MH/s", "hashrate"⟩ =
      some ⟨Severity.Critical, some (belowHint 0 5 (some "MH/s")),
        ⟨"hashrate", PVal.num 0, some "MH/s", "hashrate"⟩⟩ :=
  (c1_below_threshold none (some 5) "hashrate" "hashrate" 0 (some "MH/s")).1
    5 rfl (by decide) (by decide)

/-- C10: in the threshold-below context, a bound configured as the number 0
behaves exactly like an unconfigured bound — the evaluation result is
identical to the one with that bound absent, a critical bound of 0 never
yields a Critical verdict and a warning bound of 0 never yields a Warning
verdict, for every metric value. -/
theorem c10_zero_bound (w c : Option Int) (name cn : String) (v : Int)
    (uomv : Option String) :
    BelowThresholdContext.evaluate ⟨w, some 0⟩ ⟨name, PVal.num v, uomv, cn⟩ =
      BelowThresholdContext.evaluate ⟨w, none⟩ ⟨name, PVal.num v, uomv, cn⟩ ∧
    BelowThresholdContext.evaluate ⟨some 0, c⟩ ⟨name, PVal.num v, uomv, cn⟩ =
      BelowThresholdContext.evaluate ⟨none, c⟩ ⟨name, PVal.num v, uomv, cn⟩ ∧
    (BelowThresholdContext.evaluate ⟨w, some 0⟩
        ⟨name, PVal.num v, uomv, cn⟩).map CheckResult.state ≠
      some Severity.Critical ∧
    (BelowThresholdContext.evaluate ⟨some 0, c⟩
        ⟨name, PVal.num v, uomv, cn⟩).map CheckResult.state ≠
      some Severity.Warn := by
  refine ⟨?_, ?_, ?_, ?_⟩
  · simp [BelowThresholdContext.evaluate, PVal.cmpInt, boundFires]
  · simp [BelowThresholdContext.evaluate, PVal.cmpInt, boundFires]
  · simp only [BelowThresholdContext.evaluate, PVal.cmpInt]
    have h0 : boundFires (some 0) v = false := by simp [boundFires]
    rw [h0]
    rcases hw : boundFires w v with _ | _ <;> simp
  · simp only [BelowThresholdContext.evaluate, PVal.cmpInt]
    have h0 : boundFires (some 0) v = false := by simp [boundFires]
    rcases hc : boundFires c v with _ | _
    · rw [h0]
      simp
    · simp

/-- C2 (code bug): a device reporting `TemperatureMem` 95 yields the metric
`memory_temperature_0` registered under the context name `"temperature"`;
`main` registers no `memory_temperature` context, so the metric is evaluated
by the GPU-temperature `ScalarContext` with the default bounds 70/90 and
comes out Critical, while the parsed memory-temperature options (defaults
90/110, documented to apply to memory temperature) are never used and would
have produced Warning. -/
theorem c2_memory_temperature_bug :
    TeamRedMiner.deviceMetrics
        [("GPU", PVal.num 0), ("TemperatureMem", PVal.num 95)] =
      [⟨"memory_temperature_0", PVal.num 95, some "C", "temperature"⟩] ∧
    List.lookup "memory_temperature" (checkContexts defaultArgs) = none ∧
    List.lookup "temperature" (checkContexts defaultArgs) =
      some (ContextSpec.scalar ⟨70, 90⟩) ∧
    ScalarContextCfg.evaluate ⟨70, 90⟩ 95 = Severity.Critical ∧
    ScalarContextCfg.evaluate
        ⟨defaultArgs.memory_temperature_warning,
         defaultArgs.memory_temperature_critical⟩ 95 =
      Severity.Warn := by
  refine ⟨rfl, by decide, by decide, by decide, by decide⟩

/-- C3: for the threshold-above context (spec-modelled `ScalarContext`), the
verdict is Critical exactly when `value >= criticalBound`, else Warning
exactly when `value >= warningBound`, else Ok; with the default bounds 70/90,
value 95 gives Critical, 75 gives Warning, 50 gives Ok, and a value exactly
equal to a configured bound triggers that bound's tier. -/
theorem c3_above_threshold (w c v : Int) :
    (ScalarContextCfg.evaluate ⟨w, c⟩ v = Severity.Critical ↔ v ≥ c) ∧
    (v < c → (ScalarContextCfg.evaluate ⟨w, c⟩ v = Severity.Warn ↔ v ≥ w)) ∧
    (v < c → v < w → ScalarContextCfg.evaluate ⟨w, c⟩ v = Severity.Ok) ∧
    ScalarContextCfg.evaluate ⟨70, 90⟩ 95 = Severity.Critical ∧
    ScalarContextCfg.evaluate ⟨70, 90⟩ 75 = Severity.Warn ∧
    ScalarContextCfg.evaluate ⟨70, 90⟩ 50 = Severity.Ok ∧
    ScalarContextCfg.evaluate ⟨w, c⟩ c = Severity.Critical ∧
    (w < c → ScalarContextCfg.evaluate ⟨w, c⟩ w = Severity.Warn) := by
  refine ⟨?_, ?_, ?_, by decide, by decide, by decide, ?_, ?_⟩
  · simp only [ScalarContextCfg.evaluate]
    split_ifs with h1 h2 <;> simp_all
  · intro hvc
    simp only [ScalarContextCfg.evaluate]
    split_ifs with h1 h2 <;> simp_all
    omega
  · intro hvc hvw
    simp only [ScalarContextCfg.evaluate]
    split_ifs with h1 h2 <;> simp_all
    all_goals omega
  · simp [ScalarContextCfg.evaluate]
  · intro hwc
    have hnc : ¬(w ≥ c) := by omega
    simp [ScalarContextCfg.evaluate, hnc]

/-- C3 (witness): value 80 with bounds 70/90 is below the critical bound and
at or above the warning bound, hence Warning. -/
theorem c3_above_threshold_witness :
    ScalarContextCfg.evaluate ⟨70, 90⟩ 80 = Severity.Warn :=
  ((c3_above_threshold 70 90 80).2.1 (by decide)).mpr (by decide)

/-- C4: `raise_for_status` reports an API error exactly when some element of
the `STATUS` array carries status code `"W"`, `"E"` or `"F"`; the error
message carries the reported message and numeric code of a failing element,
and every other status code passes validation. -/
theorem c4_raise_for_status (l : List StatusEntry) :
    ((TeamRedMinerApi.raise_for_status l).isSome ↔
      ∃ e ∈ l, e.status = "W" ∨ e.status = "E" ∨ e.status = "F") ∧
    (∀ msg, TeamRedMinerApi.raise_for_status l = some msg →
      ∃ e ∈ l, (e.status = "W" ∨ e.status = "E" ∨ e.status = "F") ∧
        msg = apiErrorMsg e.msg e.code) ∧
    ((∀ e ∈ l, ¬(e.status = "W" ∨ e.status = "E" ∨ e.status = "F")) →
      TeamRedMinerApi.raise_for_status l = none) := by
  induction l with
  | nil => simp [TeamRedMinerApi.raise_for_status]
  | cons r rest ih =>
    by_cases hr : r.status = "W" ∨ r.status = "E" ∨ r.status = "F"
    · refine ⟨?_, ?_, ?_⟩
      · simp [TeamRedMinerApi.raise_for_status, hr]
      · intro msg hmsg
        simp only [TeamRedMinerApi.raise_for_status, if_pos hr,
          Option.some_inj] at hmsg
        exact ⟨r, by simp, hr, hmsg.symm⟩
      · intro hall
        exact absurd hr (hall r (by simp))
    · refine ⟨?_, ?_, ?_⟩
      · simp [TeamRedMinerApi.raise_for_status, hr, ih.1]
      · intro msg hmsg
        simp only [TeamRedMinerApi.raise_for_status, if_neg hr] at hmsg
        obtain ⟨e, he, hp, heq⟩ := ih.2.1 msg hmsg
        exact ⟨e, List.mem_cons_of_mem _ he, hp, heq⟩
      · intro hall
        simp only [TeamRedMinerApi.raise_for_status, if_neg hr]
        exact ih.2.2 fun e he => hall e (List.mem_cons_of_mem _ he)

/-- C4 (witness): a `STATUS` array holding one element with code `"E"` fails
validation. -/
theorem c4_raise_for_status_witness :
    (TeamRedMinerApi.raise_for_status [⟨"E", 1, "bad command"⟩]).isSome :=
  (c4_raise_for_status [⟨"E", 1, "bad command"⟩]).1.mpr
    ⟨⟨"E", 1, "bad command"⟩, by simp, by simp⟩

/-- C5: every error raised during probing (API error, index error, type
error) reaches the single outer boundary of `main`, which converts it into
overall severity Unknown with the error's message in the problem text, with
no retry. -/
theorem c5_error_boundary (args : Args)
    (summaryResp devsResp : ApiResponse (List JRec)) (e : String)
    (h : TeamRedMiner.probe summaryResp devsResp = Except.error e) :
    mainOutcome args summaryResp devsResp =
      (Severity.Unknown, "Failed to execute check: " ++ e) := by
  simp [mainOutcome, h]

/-- C5 (witness): a `summary` response whose `STATUS` array contains
`{"STATUS":"E","Code":1,"Msg":"bad command"}` makes the overall outcome
Unknown with a problem text containing `"bad command"`. -/
theorem c5_error_boundary_witness :
    mainOutcome defaultArgs ⟨[⟨"E", 1, "bad command"⟩], []⟩ ⟨[], []⟩ =
      (Severity.Unknown, "Failed to execute check: " ++ apiErrorMsg "bad command" 1) ∧
    ∃ pre post,
      "Failed to execute check: " ++ apiErrorMsg "bad command" 1 =
        pre ++ "bad command" ++ post :=
  ⟨c5_error_boundary defaultArgs ⟨[⟨"E", 1, "bad command"⟩], []⟩ ⟨[], []⟩
      (apiErrorMsg "bad command" 1) rfl,
   ⟨"Failed to execute check: API error: ", " (code 1)", by decide⟩⟩

/-- C7: the boolean-equality context yields Ok with no hint when the metric
value equals the expected value; on mismatch it yields Critical if configured
critical, else Warning if configured warning, else Ok, always with hint
`"<metricName> is not <expected>"`; under the configuration registered for
`alive` in `main` (expected true, critical true), a dead GPU gives Critical
with hint `"alive_0 is not True"` and a live one gives Ok. -/
theorem c7_boolean (ctx : BooleanContext) (name cn : String) (v : Bool) :
    (v = ctx.expected →
      BooleanContext.evaluate ctx ⟨name, PVal.bool v, none, cn⟩ =
        ⟨Severity.Ok, none, ⟨name, PVal.bool v, none, cn⟩⟩) ∧
    (v ≠ ctx.expected →
      BooleanContext.evaluate ctx ⟨name, PVal.bool v, none, cn⟩ =
        ⟨(if ctx.critical then Severity.Critical
          else if ctx.warning then Severity.Warn else Severity.Ok),
         some (name ++ " is not " ++ pyBoolStr ctx.expected),
         ⟨name, PVal.bool v, none, cn⟩⟩) ∧
    List.lookup "alive" (checkContexts defaultArgs) =
      some (ContextSpec.boolean ⟨true, false, true⟩) ∧
    BooleanContext.evaluate ⟨true, false, true⟩
        ⟨"alive_0", PVal.bool false, none, "alive"⟩ =
      ⟨Severity.Critical, some "alive_0 is not True",
        ⟨"alive_0", PVal.bool false, none, "alive"⟩⟩ ∧
    BooleanContext.evaluate ⟨true, false, true⟩
        ⟨"alive_0", PVal.bool true, none, "alive"⟩ =
      ⟨Severity.Ok, none, ⟨"alive_0", PVal.bool true, none, "alive"⟩⟩ := by
  refine ⟨?_, ?_, by decide, by decide, by decide⟩
  · intro h
    simp [BooleanContext.evaluate, PVal.isPyBool, h]
  · intro h
    simp [BooleanContext.evaluate, PVal.isPyBool, h]

/-- C7 (witness): a non-alive GPU under the default alive configuration is
Critical with hint `"alive_0 is not True"`. -/
theorem c7_boolean_witness :
    BooleanContext.evaluate ⟨true, false, true⟩
        ⟨"alive_0", PVal.bool false, none, "alive"⟩ =
      ⟨(if true then Severity.Critical
        else if false then Severity.Warn else Severity.Ok),
       some ("alive_0" ++ " is not " ++ pyBoolStr true),
       ⟨"alive_0", PVal.bool false, none, "alive"⟩⟩ :=
  (c7_boolean ⟨true, false, true⟩ "alive_0" "alive" false).2.1 (by decide)

/-- C8: `problem` keeps exactly the results whose severity is not Ok,
renders each as `"<metricName> <severity>: <hint>"`, joins them with `", "`,
and returns the empty string when every result is Ok or the sequence is
empty. -/
theorem c8_problem (results : List CheckResult) :
    TeamRedMinerSummary.problem results =
      String.intercalate ", "
        ((results.filter fun r => r.state ≠ Severity.Ok).map renderResult) ∧
    ((∀ r ∈ results, r.state = Severity.Ok) →
      TeamRedMinerSummary.problem results = "") ∧
    TeamRedMinerSummary.problem [] = "" := by
  have hfilter :
      (results.filter fun r => r.state.text ≠ "ok") =
        results.filter fun r => r.state ≠ Severity.Ok := by
    apply List.filter_congr
    intro r _
    cases hs : r.state <;> simp [Severity.text, hs]
  refine ⟨?_, ?_, rfl⟩
  · rw [TeamRedMinerSummary.problem, hfilter]
  · intro hall
    rw [TeamRedMinerSummary.problem, hfilter]
    have hnil : (results.filter fun r => r.state ≠ Severity.Ok) = [] := by
      rw [List.filter_eq_nil_iff]
      intro r hr
      simp [hall r hr]
    rw [hnil]
    rfl

/-- C8 (witness): a result list holding a single Ok result renders as the
empty problem string. -/
theorem c8_problem_witness :
    TeamRedMinerSummary.problem
      [⟨Severity.Ok, none, ⟨"hashrate", PVal.num 100, some "MH/s", "hashrate"⟩⟩] = "" :=
  (c8_problem [⟨Severity.Ok, none, ⟨"hashrate", PVal.num 100, some "MH/s", "hashrate"⟩⟩]).2.1
    (by intro r hr; simp at hr; rw [hr])

/-- Reflexivity of the severity order. -/
theorem Severity.le_refl (a : Severity) : Severity.le a a := by
  cases a <;> decide

/-- Transitivity of the severity order. -/
theorem Severity.le_trans {a b c : Severity} (h1 : Severity.le a b)
    (h2 : Severity.le b c) : Severity.le a c := by
  revert h1 h2
  cases a <;> cases b <;> cases c <;> decide

/-- The left argument is at most the maximum. -/
theorem Severity.le_max_left (a b : Severity) : Severity.le a (Severity.max a b) := by
  cases a <;> cases b <;> decide

/-- The right argument is at most the maximum. -/
theorem Severity.le_max_right (a b : Severity) : Severity.le b (Severity.max a b) := by
  cases a <;> cases b <;> decide

/-- The maximum of two severities is one of them. -/
theorem Severity.max_eq_or (a b : Severity) :
    Severity.max a b = a ∨ Severity.max a b = b := by
  cases a <;> cases b <;> decide

/-- Folding `Severity.max` never drops below the accumulator. -/
theorem foldl_sevMax_le_init :
    ∀ (l : List Severity) (a : Severity), Severity.le a (l.foldl Severity.max a)
  | [], a => Severity.le_refl a
  | b :: l, a =>
    Severity.le_trans (Severity.le_max_left a b)
      (foldl_sevMax_le_init l (Severity.max a b))

/-- Folding `Severity.max` dominates every list element. -/
theorem foldl_sevMax_le_mem (l : List Severity) :
    ∀ (a s : Severity), s ∈ l → Severity.le s (l.foldl Severity.max a) := by
  induction l with
  | nil =>
    intro a s h
    cases h
  | cons b rest ih =>
    intro a s h
    rcases List.mem_cons.mp h with h1 | h1
    · subst h1
      exact Severity.le_trans (Severity.le_max_right a s)
        (foldl_sevMax_le_init rest (Severity.max a s))
    · exact ih (Severity.max a b) s h1

/-- Folding `Severity.max` yields the accumulator or a list element. -/
theorem foldl_sevMax_mem (l : List Severity) :
    ∀ a : Severity, l.foldl Severity.max a = a ∨ l.foldl Severity.max a ∈ l := by
  induction l with
  | nil =>
    intro a
    exact Or.inl rfl
  | cons b rest ih =>
    intro a
    simp only [List.foldl_cons]
    rcases ih (Severity.max a b) with h | h
    · rw [h]
      rcases Severity.max_eq_or a b with h2 | h2
      · exact Or.inl h2
      · exact Or.inr (by rw [h2]; exact List.mem_cons_self b rest)
    · exact Or.inr (List.mem_cons_of_mem b h)

/-- C9: the overall severity is the maximum of the individual severities in
the total order Ok < Warning < Critical < Unknown (it dominates every result
and is itself one of them unless the set is empty), with Ok for the empty
result set; one Ok, one Warning and one Critical result aggregate to
Critical. -/
theorem c9_overall (states : List Severity) :
    overallSeverity [] = Severity.Ok ∧
    (∀ s ∈ states, Severity.le s (overallSeverity states)) ∧
    (overallSeverity states = Severity.Ok ∨ overallSeverity states ∈ states) ∧
    (Severity.le Severity.Ok Severity.Warn ∧
     Severity.le Severity.Warn Severity.Critical ∧
     Severity.le Severity.Critical Severity.Unknown ∧
     Severity.Ok ≠ Severity.Warn ∧ Severity.Warn ≠ Severity.Critical ∧
     Severity.Critical ≠ Severity.Unknown) ∧
    overallSeverity [Severity.Ok, Severity.Warn, Severity.Critical] =
      Severity.Critical := by
  refine ⟨rfl, ?_, ?_, by decide, by decide⟩
  · intro s h
    exact foldl_sevMax_le_mem states Severity.Ok s h
  · exact foldl_sevMax_mem states Severity.Ok

/-- C9 (witness): a single Warning result dominates the aggregate. -/
theorem c9_overall_witness :
    Severity.le Severity.Warn (overallSeverity [Severity.Warn]) :=
  (c9_overall [Severity.Warn]).2.1 Severity.Warn (by simp)

/-- Strings with prefixes of different lengths stay different after appending
the same suffix. -/
theorem append_ne_of_length_ne {a b : String} (h : a.length ≠ b.length)
    (s : String) : a ++ s ≠ b ++ s := by
  intro he
  apply h
  have hl := congrArg String.length he
  simp only [String.length_append] at hl
  omega

/-- C6: metric emission is purely data-driven — the `hashrate` metric is
emitted iff `"MHS 30s"` is present in the first summary record, the `uptime`
metric iff `"Elapsed"` is present, and per device record the `alive_<id>`,
`temperature_<id>` and `memory_temperature_<id>` metrics are emitted iff
`"GPU"` plus respectively `"Status"`, `"Temperature"`, `"TemperatureMem"` are
present; missing optional fields never fail the probe.  (The hypothesis
excludes a string-valued `"Elapsed"`, whose logging comparison `uptime > 1`
would raise `TypeError`; the wire protocol types it as a number.) -/
theorem c6_data_driven (summary : JRec) (devs : List JRec)
    (hel : ∀ s, summary.get "Elapsed" ≠ some (PVal.str s)) :
    (∃ ms, TeamRedMiner.summaryMetrics summary = Except.ok ms ∧
      ((∃ m ∈ ms, m.name = "hashrate") ↔ (summary.get "MHS 30s").isSome) ∧
      ((∃ m ∈ ms, m.name = "uptime") ↔ (summary.get "Elapsed").isSome) ∧
      TeamRedMiner.probe ⟨[], [summary]⟩ ⟨[], devs⟩ =
        Except.ok (ms ++ devs.flatMap TeamRedMiner.deviceMetrics)) ∧
    ∀ d : JRec,
      (d.get "GPU" = none → TeamRedMiner.deviceMetrics d = []) ∧
      (∀ idv, d.get "GPU" = some idv →
        ((∃ m ∈ TeamRedMiner.deviceMetrics d,
            m.name = "alive_" ++ idv.pyStr) ↔ (d.get "Status").isSome) ∧
        ((∃ m ∈ TeamRedMiner.deviceMetrics d,
            m.name = "temperature_" ++ idv.pyStr) ↔ (d.get "Temperature").isSome) ∧
        ((∃ m ∈ TeamRedMiner.deviceMetrics d,
            m.name = "memory_temperature_" ++ idv.pyStr) ↔
          (d.get "TemperatureMem").isSome)) := by
  constructor
  · have hprobe : ∀ ms, TeamRedMiner.summaryMetrics summary = Except.ok ms →
        TeamRedMiner.probe ⟨[], [summary]⟩ ⟨[], devs⟩ =
          Except.ok (ms ++ devs.flatMap TeamRedMiner.deviceMetrics) := by
      intro ms hms
      have hok : ∀ {α β : Type} (x : α) (f : α → Except String β),
          (Except.ok x >>= f) = f x := fun x f => rfl
      simp only [TeamRedMiner.probe, TeamRedMinerApi.request,
        TeamRedMinerApi.raise_for_status, hok, hms]
    rcases hE : summary.get "Elapsed" with _ | v
    · rcases hM : summary.get "MHS 30s" with _ | w
      · refine ⟨[], ?_, by simp, by simp [hE], ?_⟩
        · simp [TeamRedMiner.summaryMetrics, hE, hM]
        · exact hprobe [] (by simp [TeamRedMiner.summaryMetrics, hE, hM])
      · refine ⟨[⟨"hashrate", w, some "MH/s", "hashrate"⟩], ?_, by simp, ?_, ?_⟩
        · simp [TeamRedMiner.summaryMetrics, hE, hM]
        · simp [hE]
        · exact hprobe _ (by simp [TeamRedMiner.summaryMetrics, hE, hM])
    · cases v with
      | str s => exact absurd hE (hel s)
      | num n =>
        rcases hM : summary.get "MHS 30s" with _ | w
        · refine ⟨[⟨"uptime", PVal.num n, some "s", "uptime"⟩], ?_, ?_, by simp [hE], ?_⟩
          · simp [TeamRedMiner.summaryMetrics, hE, hM]
          · simp
          · exact hprobe _ (by simp [TeamRedMiner.summaryMetrics, hE, hM])
        · refine ⟨[⟨"hashrate", w, some "MH/s", "hashrate"⟩,
            ⟨"uptime", PVal.num n, some "s", "uptime"⟩], ?_, by simp, by simp [hE], ?_⟩
          · simp [TeamRedMiner.summaryMetrics, hE, hM]
          · exact hprobe _ (by simp [TeamRedMiner.summaryMetrics, hE, hM])
      | bool b =>
        rcases hM : summary.get "MHS 30s" with _ | w
        · refine ⟨[⟨"uptime", PVal.bool b, some "s", "uptime"⟩], ?_, ?_, by simp [hE], ?_⟩
          · simp [TeamRedMiner.summaryMetrics, hE, hM]
          · simp
          · exact hprobe _ (by simp [TeamRedMiner.summaryMetrics, hE, hM])
        · refine ⟨[⟨"hashrate", w, some "MH/s", "hashrate"⟩,
            ⟨"uptime", PVal.bool b, some "s", "uptime"⟩], ?_, by simp, by simp [hE], ?_⟩
          · simp [TeamRedMiner.summaryMetrics, hE, hM]
          · exact hprobe _ (by simp [TeamRedMiner.summaryMetrics, hE, hM])
  · intro d
    constructor
    · intro hG
      simp [TeamRedMiner.deviceMetrics, hG]
    · intro idv hG
      have h_at : "alive_" ++ idv.pyStr ≠ "temperature_" ++ idv.pyStr :=
        append_ne_of_length_ne (by decide) idv.pyStr
      have h_am : "alive_" ++ idv.pyStr ≠ "memory_temperature_" ++ idv.pyStr :=
        append_ne_of_length_ne (by decide) idv.pyStr
      have h_tm : "temperature_" ++ idv.pyStr ≠ "memory_temperature_" ++ idv.pyStr :=
        append_ne_of_length_ne (by decide) idv.pyStr
      rcases hS : d.get "Status" with _ | sv <;>
        rcases hT : d.get "Temperature" with _ | tv <;>
        rcases hTM : d.get "TemperatureMem" with _ | mv <;>
        simp [TeamRedMiner.deviceMetrics, hG, hS, hT, hTM,
          h_at, h_am, h_tm, Ne.symm h_at, Ne.symm h_am, Ne.symm h_tm]

/-- C6 (witness): a device record with no `"GPU"` field emits no metrics and
does not fail the probe. -/
theorem c6_data_driven_witness :
    TeamRedMiner.deviceMetrics [("Temperature", PVal.num 60)] = [] :=
  ((c6_data_driven [] []
      (fun s h => by simp [JRec.get, List.lookup] at h)).2
    [("Temperature", PVal.num 60)]).1 (by decide)

/-- C10 (witness): with a critical bound of 0 and value -3 (below the bound),
the verdict is still not Critical. -/
theorem c10_zero_bound_witness :
    (BelowThresholdContext.evaluate ⟨none, some 0⟩
        ⟨"uptime", PVal.num (-3), some "s", "uptime"⟩).map CheckResult.state ≠
      some Severity.Critical :=
  (c10_zero_bound none none "uptime" "uptime" (-3) (some "s")).2.2.1


